import Mathlib

/-!
Shallow embedding of the AIDatatutor Streamlit application (src/AItutor.py).

The application is a linear script; its reproducible core is four pieces:
the LLM gateway `get_ai_response`, the history store
`load_chat_history` / `save_chat_history`, the event handlers that mutate
the chat history (quick-question buttons, the chat input, the clear and
download buttons, the login form), and the Run Code handler.

External effects are modelled explicitly:
the remote generative-AI call is an oracle value of type `RemoteOutcome`;
the backing file `chat_history.json` is a `FileState`; the Python `json`
module is modelled at the document level (a readable file holds the parsed
JSON document; `json.dump` followed by `json.load` is the identity on
documents, a property of the library, not of this repository);
`sys.stdout` is a `StdoutTarget`; the matplotlib figure registry is a
`PltState`.  Python exceptions are `Except` values.
-/

/-- A JSON document, as handled by the Python `json` module. -/
inductive Json where
  | null : Json
  | bool : Bool → Json
  | num : Int → Json
  | str : String → Json
  | arr : List Json → Json
  | obj : List (String × Json) → Json

/-- The Python exceptions relevant to this script. -/
inductive PyError where
  | fileNotFound
  | osError
  | jsonDecodeError
deriving DecidableEq, Repr

/-- State of the backing file `chat_history.json`:
absent, present but unreadable (opening or reading raises an `OSError`),
present and readable but not valid JSON (`json.load` raises a
`JSONDecodeError`), or readable with a parsed document `j`. -/
inductive FileState where
  | missing : FileState
  | unreadable : FileState
  | invalid : FileState
  | valid : Json → FileState

/-- One chat record as the application stores it: the dict
`{"username": ..., "role": ..., "message": ...}` appended by the chat
handlers (src/AItutor.py lines 111-121, 139-151). -/
structure ChatTurn where
  username : String
  role : String
  message : String
deriving DecidableEq, Repr

/-- Outcome of the remote call `model.generate_content(user_input)` together
with the access `response.text`: the call yields a response whose `text`
attribute is the given string (an empty string is falsy in Python), yields a
falsy response object, or raises an exception whose `str` is `details`. -/
inductive RemoteOutcome where
  | ok : String → RemoteOutcome
  | noResp : RemoteOutcome
  | raise : String → RemoteOutcome

/-- Python `text.replace('\n', '\n- ')` at character level: the pattern is a
single character, so each newline keeps its place and gains `"- "` after it. -/
def pyReplaceNewline : List Char → List Char
  | [] => []
  | c :: rest =>
      if c = '\n' then '\n' :: '-' :: ' ' :: pyReplaceNewline rest
      else c :: pyReplaceNewline rest

/-- `get_ai_response` (src/AItutor.py lines 24-30).  All paths return a
string: a bulleted reformatting of the response text when it is non-empty,
the sentinel `"⚠️ Error: AI could not generate a response."` when the
response or its text is falsy, and `"⚠️ API Error: " ++ details` when the
remote call raises. -/
def get_ai_response (outcome : RemoteOutcome) : String :=
  match outcome with
  | .raise e => "⚠️ API Error: " ++ e
  | .noResp => "⚠️ Error: AI could not generate a response."
  | .ok t =>
      if t = "" then "⚠️ Error: AI could not generate a response."
      else "\n- " ++ String.mk (pyReplaceNewline t.data)

/-- `load_chat_history` (src/AItutor.py lines 33-38): opens and parses the
backing file inside a `try` whose only handler catches `FileNotFoundError`
and returns `[]`; any other exception propagates to the caller. -/
def load_chat_history (fs : FileState) : Except PyError Json :=
  match fs with
  | .missing => Except.ok (Json.arr [])
  | .unreadable => Except.error PyError.osError
  | .invalid => Except.error PyError.jsonDecodeError
  | .valid j => Except.ok j

/-- The JSON document `json.dump` writes for one chat record. -/
def encodeTurn (t : ChatTurn) : Json :=
  Json.obj [("username", Json.str t.username), ("role", Json.str t.role),
            ("message", Json.str t.message)]

/-- The JSON document `json.dump` writes for the whole chat history. -/
def encodeHistory (l : List ChatTurn) : Json :=
  Json.arr (l.map encodeTurn)

/-- Reading one chat record back from its JSON document. -/
def decodeTurn : Json → Option ChatTurn
  | Json.obj [("username", Json.str u), ("role", Json.str r),
              ("message", Json.str m)] => some ⟨u, r, m⟩
  | _ => none

/-- Reading a list of chat records back from a list of JSON documents. -/
def decodeTurns : List Json → Option (List ChatTurn)
  | [] => some []
  | j :: rest =>
      match decodeTurn j, decodeTurns rest with
      | some t, some ts => some (t :: ts)
      | _, _ => none

/-- Reading the whole chat history back from its JSON document. -/
def decodeHistory : Json → Option (List ChatTurn)
  | Json.arr xs => decodeTurns xs
  | _ => none

/-- `save_chat_history` (src/AItutor.py lines 40-42): opens the backing file
for writing, truncating it, and dumps the full in-memory history, whatever
the file held before. -/
def save_chat_history (chat_history : List ChatTurn) (_fs : FileState) :
    FileState :=
  FileState.valid (encodeHistory chat_history)

/-- The "Clear Chat History" button handler (src/AItutor.py lines 92-94):
replaces the in-memory history with `[]` and saves. -/
def clearChatHandler (_chat_history : List ChatTurn) (fs : FileState) :
    List ChatTurn × FileState :=
  let emptied : List ChatTurn := []
  (emptied, save_chat_history emptied fs)

/-- The chat-input handler (src/AItutor.py lines 138-154): appends the user
turn, asks the gateway, appends the assistant turn, and saves. -/
def chatSubmitHandler (username role user_input : String)
    (outcome : RemoteOutcome) (chat_history : List ChatTurn)
    (fs : FileState) : List ChatTurn × FileState :=
  let h1 := chat_history ++ [⟨username, role, user_input⟩]
  let response := get_ai_response outcome
  let h2 := h1 ++ [⟨"AI Assistant", "AI", response⟩]
  (h2, save_chat_history h2 fs)

/-- A quick-question button handler (src/AItutor.py lines 109-123): same
sequence as the chat-input handler, with the button's fixed question. -/
def quickQuestionHandler (username role question : String)
    (outcome : RemoteOutcome) (chat_history : List ChatTurn)
    (fs : FileState) : List ChatTurn × FileState :=
  let h1 := chat_history ++ [⟨username, role, question⟩]
  let response := get_ai_response outcome
  let h2 := h1 ++ [⟨"AI Assistant", "AI", response⟩]
  (h2, save_chat_history h2 fs)

/-- Python `sep.join(parts)`. -/
def pyJoin (sep : String) : List String → String
  | [] => ""
  | [s] => s
  | s :: rest => s ++ sep ++ pyJoin sep rest

/-- The line built for one record by the "Download Chat History" handler
(src/AItutor.py line 96). -/
def formatChatEntry (chat : ChatTurn) : String :=
  "**" ++ chat.username ++ " (" ++ chat.role ++ "):** " ++ chat.message

/-- The "Download Chat History" handler's exported text
(src/AItutor.py lines 95-97). -/
def downloadChatExport (chat_history : List ChatTurn) : String :=
  pyJoin "\n" (chat_history.map formatChatEntry)

/-- The login-relevant slice of `st.session_state`: `logged_in`,
`username` (absent until the first successful login), and `role`. -/
structure LoginState where
  logged_in : Bool
  username : Option String
  role : String
deriving DecidableEq, Repr

/-- The "Login" button handler (src/AItutor.py lines 63-70).  Returns the
new session state, and `true` when `st.warning` was shown.  With an empty
username only the warning happens; otherwise `logged_in`, `username` and
`role` are set. -/
def loginButtonHandler (username role : String) (s : LoginState) :
    LoginState × Bool :=
  if username = "" then (s, true)
  else ({ logged_in := true, username := some username, role := role }, false)

/-- Where `sys.stdout` currently points: the process's real standard output,
or an in-memory capture buffer (`io.StringIO`) with its current contents. -/
inductive StdoutTarget where
  | real : StdoutTarget
  | buffer : String → StdoutTarget
deriving DecidableEq, Repr

/-- The matplotlib figure registry: the numbers of the open figures, in
activation order (most recently active last). -/
structure PltState where
  figs : List Nat
deriving DecidableEq, Repr

/-- `plt.gcf()`: the most recently active open figure (were none open, a
fresh figure 1 would be created; the handler only calls this under a
non-emptiness check). -/
def pltGcf (p : PltState) : Nat := p.figs.getLastD 1

/-- The observable effect of `exec(code, exec_globals)` on the modelled
environment: the text the code writes to the current stdout, the figures it
opens, and whether it raises (with the exception's display string). -/
structure ExecEffect where
  writes : String
  opensFigs : List Nat
  raises : Option String
deriving DecidableEq, Repr

/-- What the Run Code handler displays: captured stdout text, captured
figure, the gateway's explanation, and the error banner text, each present
only on the path that produces it. -/
structure CodeRunResult where
  output : Option String
  figure : Option Nat
  explanation : Option String
  error : Option String
deriving DecidableEq, Repr

/-- The ambient state the Run Code handler touches: `sys.stdout` and the
matplotlib figure registry. -/
structure RunState where
  stdout : StdoutTarget
  plt : PltState
deriving DecidableEq, Repr

/-- The "Run Code" button handler (src/AItutor.py lines 161-180).  Inside
the `try`: the original stdout is remembered, `sys.stdout` is replaced by a
fresh `StringIO`, the submitted code runs (writing `eff.writes` into the
buffer and opening `eff.opensFigs`).  If `exec` raises, control jumps to the
`except` branch, which only renders the error banner — there is no
`finally`, so `sys.stdout` keeps pointing at the capture buffer.  On the
success path the buffer's contents are read, stdout is restored, a figure is
captured when at least one is open, and the gateway is asked to explain the
code. -/
def runCodeHandler (code : String) (eff : ExecEffect)
    (explainOutcome : RemoteOutcome) (s : RunState) :
    CodeRunResult × RunState :=
  let old_stdout := s.stdout
  let captured := StdoutTarget.buffer eff.writes
  let pltAfter : PltState := ⟨s.plt.figs ++ eff.opensFigs⟩
  let _prompt := "Explain this Python code: " ++ code
  match eff.raises with
  | some e =>
      ({ output := none, figure := none, explanation := none,
         error := some ("Error: " ++ e) },
       { stdout := captured, plt := pltAfter })
  | none =>
      let output := eff.writes
      let fig := if pltAfter.figs = [] then none else some (pltGcf pltAfter)
      let explanation := get_ai_response explainOutcome
      ({ output := some output, figure := fig,
         explanation := some explanation, error := none },
       { stdout := old_stdout, plt := pltAfter })

/-- Helper for stating the bulleting property: every newline in the
character list is immediately followed by the two characters of a bullet
marker. -/
def bulleted : List Char → Bool
  | [] => true
  | c :: rest =>
      if c = '\n' then
        match rest with
        | '-' :: ' ' :: rest2 => bulleted rest2
        | _ => false
      else bulleted rest

/-- Helper inverse for the bulleting transformation: drop the bullet marker
that follows each newline. -/
def unbullet : List Char → List Char
  | '\n' :: '-' :: ' ' :: rest => '\n' :: unbullet rest
  | c :: rest => c :: unbullet rest
  | [] => []

/- Helper lemmas. -/

theorem decodeTurns_map_encodeTurn (l : List ChatTurn) :
    decodeTurns (l.map encodeTurn) = some l := by
  induction l with
  | nil => rfl
  | cons t ts ih => simp [decodeTurns, decodeTurn, encodeTurn, ih]

theorem bulleted_cons_ne (c : Char) (x : List Char) (h : c ≠ '\n') :
    bulleted (c :: x) = bulleted x := by
  conv_lhs => rw [bulleted.eq_def]
  simp [h]

theorem unbullet_cons_ne (c : Char) (x : List Char) (h : c ≠ '\n') :
    unbullet (c :: x) = c :: unbullet x := by
  rw [unbullet.eq_2]
  intro rest h1 h2
  exact h h1

theorem bulleted_pyReplaceNewline (l : List Char) :
    bulleted (pyReplaceNewline l) = true := by
  induction l with
  | nil => rfl
  | cons c rest ih =>
      by_cases h : c = '\n'
      · subst h
        simp only [pyReplaceNewline, if_pos]
        exact ih
      · simp only [pyReplaceNewline, if_neg h]
        rw [bulleted_cons_ne c _ h]
        exact ih

theorem unbullet_pyReplaceNewline (l : List Char) :
    unbullet (pyReplaceNewline l) = l := by
  induction l with
  | nil => rfl
  | cons c rest ih =>
      by_cases h : c = '\n'
      · subst h
        simp only [pyReplaceNewline, if_pos]
        rw [unbullet, ih]
      · simp only [pyReplaceNewline, if_neg h]
        rw [unbullet_cons_ne c _ h, ih]

/-- Claim C1, counterexample: with the backing file present but holding
unparseable content, `load_chat_history` raises a `JSONDecodeError` to the
caller instead of returning the empty sequence; an unreadable file likewise
raises an `OSError`. -/
theorem load_chat_history_raises_cex :
    load_chat_history FileState.invalid = Except.error PyError.jsonDecodeError ∧
    load_chat_history FileState.unreadable = Except.error PyError.osError ∧
    load_chat_history FileState.invalid ≠ Except.ok (Json.arr []) := by
  refine ⟨rfl, rfl, ?_⟩
  intro h
  simp [load_chat_history] at h

/-- Claim C1 (amended): `load_chat_history` fails soft only for a missing
backing file — `FileNotFoundError` is the only exception it catches, and
then it returns the empty sequence; a readable file yields its parsed
document, while an unreadable file or unparseable content raises to the
caller. -/
theorem load_chat_history_soft_only_for_missing :
    load_chat_history FileState.missing = Except.ok (Json.arr []) ∧
    (∀ j : Json, load_chat_history (FileState.valid j) = Except.ok j) ∧
    (∀ fs : FileState, (∃ e, load_chat_history fs = Except.error e) ↔
      (fs = FileState.unreadable ∨ fs = FileState.invalid)) := by
  refine ⟨rfl, fun j => rfl, fun fs => ?_⟩
  cases fs <;> simp [load_chat_history]

/-- Claim C2, counterexample: on a response with no text the gateway does
return a fixed sentinel, but the sentinel carries a leading warning sign —
it is not the exact string the claim names. -/
theorem ask_sentinel_cex :
    get_ai_response (RemoteOutcome.ok "") =
      "⚠️ Error: AI could not generate a response." ∧
    get_ai_response (RemoteOutcome.ok "") ≠
      "Error: AI could not generate a response." := by
  exact ⟨rfl, by decide⟩

/-- Claim C2 (amended): whenever the remote call yields no text — a falsy
response object or an empty text attribute — `get_ai_response` returns
exactly the sentinel string "⚠️ Error: AI could not generate a response."
as a normal result (the gateway is a total function: it never raises). -/
theorem ask_no_text_sentinel :
    ∀ o : RemoteOutcome, (o = RemoteOutcome.ok "" ∨ o = RemoteOutcome.noResp) →
      get_ai_response o = "⚠️ Error: AI could not generate a response." := by
  rintro o (rfl | rfl) <;> rfl

/-- Witness for the amended claim C2 at the empty-text response. -/
theorem ask_no_text_sentinel_witness :
    get_ai_response (RemoteOutcome.ok "") =
      "⚠️ Error: AI could not generate a response." :=
  ask_no_text_sentinel (RemoteOutcome.ok "") (Or.inl rfl)

/-- Claim C3, counterexample: on a raised exception the returned string is
"⚠️ API Error: boom" — its first characters are the warning sign, so it
does not start with "API Error: ". -/
theorem ask_api_error_cex :
    get_ai_response (RemoteOutcome.raise "boom") = "⚠️ API Error: boom" ∧
    (get_ai_response (RemoteOutcome.raise "boom")).data.take
      ("API Error: ".data.length) ≠ "API Error: ".data := by
  exact ⟨rfl, by decide⟩

/-- Claim C3 (amended): for every raised exception the gateway returns, as
a normal result, the string "⚠️ API Error: " followed by the exception's
details — in particular the result starts with "⚠️ API Error: "; the
gateway is a total function, so nothing propagates past its boundary. -/
theorem ask_api_error_format :
    ∀ e : String,
      get_ai_response (RemoteOutcome.raise e) = "⚠️ API Error: " ++ e ∧
      (get_ai_response (RemoteOutcome.raise e)).data.take
        ("⚠️ API Error: ".data.length) = "⚠️ API Error: ".data := by
  intro e
  refine ⟨rfl, ?_⟩
  have h : (get_ai_response (RemoteOutcome.raise e)).data =
      "⚠️ API Error: ".data ++ e.data := by
    simp [get_ai_response, String.data_append]
  rw [h, List.take_left]

/-- Claim C5: saving any sequence of chat turns (the empty one included)
and immediately loading returns exactly the saved sequence: the loaded
document is the saved one, and decoding it recovers the turns losslessly
and in order. -/
theorem save_load_round_trip :
    ∀ (l : List ChatTurn) (fs : FileState),
      load_chat_history (save_chat_history l fs) =
        Except.ok (encodeHistory l) ∧
      decodeHistory (encodeHistory l) = some l := by
  intro l fs
  exact ⟨rfl, by simp [decodeHistory, encodeHistory, decodeTurns_map_encodeTurn]⟩

/-- Claim C6: each history-mutating handler (clear, chat submit,
quick-question) ends with the backing store holding the full overwrite of
the entire in-memory sequence; after clearing, the in-memory history is
empty, the store holds the empty document, and reloading yields it. -/
theorem mutations_full_overwrite :
    ∀ (hist : List ChatTurn) (fs : FileState) (u r input q : String)
      (o : RemoteOutcome),
      (clearChatHandler hist fs).2 =
        FileState.valid (encodeHistory (clearChatHandler hist fs).1) ∧
      (clearChatHandler hist fs).1 = [] ∧
      load_chat_history (clearChatHandler hist fs).2 =
        Except.ok (Json.arr []) ∧
      (chatSubmitHandler u r input o hist fs).2 =
        FileState.valid (encodeHistory (chatSubmitHandler u r input o hist fs).1) ∧
      (quickQuestionHandler u r q o hist fs).2 =
        FileState.valid (encodeHistory (quickQuestionHandler u r q o hist fs).1) := by
  intro hist fs u r input q o
  exact ⟨rfl, rfl, rfl, rfl, rfl⟩

/-- Claim C7, counterexample: on the successful response "hi" the gateway
returns "\n- hi" — a newline precedes the first bullet — not the
"- hi" the claim describes. -/
theorem ask_bullets_cex :
    get_ai_response (RemoteOutcome.ok "hi") = "\n- hi" ∧
    get_ai_response (RemoteOutcome.ok "hi") ≠ "- hi" := by
  exact ⟨by decide, by decide⟩

/-- Claim C7 (amended): on a successful response with non-empty text the
gateway returns the raw text with a leading newline and "- " inserted
before it, and "- " inserted after every embedded line break; no other
transformation happens — every newline in the result is immediately
followed by a bullet marker, and dropping the inserted markers recovers the
raw text exactly. -/
theorem ask_success_bullets :
    ∀ t : String, t ≠ "" →
      get_ai_response (RemoteOutcome.ok t) =
        "\n- " ++ String.mk (pyReplaceNewline t.data) ∧
      bulleted (get_ai_response (RemoteOutcome.ok t)).data = true ∧
      unbullet (pyReplaceNewline t.data) = t.data := by
  intro t ht
  refine ⟨by simp [get_ai_response, ht], ?_, unbullet_pyReplaceNewline t.data⟩
  have h1 : (get_ai_response (RemoteOutcome.ok t)).data =
      '\n' :: '-' :: ' ' :: pyReplaceNewline t.data := by
    simp [get_ai_response, ht, String.data_append]
  rw [h1]
  exact bulleted_pyReplaceNewline t.data

/-- Witness for the amended claim C7 at the response text "hi". -/
theorem ask_success_bullets_witness :
    ("hi" : String) ≠ "" ∧
    get_ai_response (RemoteOutcome.ok "hi") =
      "\n- " ++ String.mk (pyReplaceNewline "hi".data) :=
  ⟨by decide, (ask_success_bullets "hi" (by decide)).1⟩

theorem pyJoin_newline_count :
    ∀ parts : List String, parts ≠ [] →
      (∀ s ∈ parts, s.data.count '\n' = 0) →
      (pyJoin "\n" parts).data.count '\n' + 1 = parts.length := by
  intro parts
  induction parts with
  | nil => intro h; exact absurd rfl h
  | cons s rest ih =>
      intro _ hclean
      cases rest with
      | nil => simp [pyJoin, hclean s (by simp)]
      | cons s2 rest2 =>
          have hr := ih (by simp)
            (fun x hx => hclean x (List.mem_cons_of_mem _ hx))
          have hs := hclean s (by simp)
          have hnl : ("\n" : String).data.count '\n' = 1 := by decide
          have hj : pyJoin "\n" (s :: s2 :: rest2) =
              s ++ "\n" ++ pyJoin "\n" (s2 :: rest2) := rfl
          rw [hj]
          simp only [String.data_append, List.count_append, hnl, hs,
            List.length_cons] at hr ⊢
          omega

theorem formatChatEntry_newline_count (t : ChatTurn)
    (h1 : t.username.data.count '\n' = 0) (h2 : t.role.data.count '\n' = 0)
    (h3 : t.message.data.count '\n' = 0) :
    (formatChatEntry t).data.count '\n' = 0 := by
  have ha : ("**" : String).data.count '\n' = 0 := by decide
  have hb : (" (" : String).data.count '\n' = 0 := by decide
  have hc : ("):** " : String).data.count '\n' = 0 := by decide
  simp only [formatChatEntry, String.data_append, List.count_append,
    h1, h2, h3, ha, hb, hc]

/-- Claim C8, counterexample: the export line for the turn
(Alice, User, hi) is "**Alice (User):** hi", not "Alice: hi"; and a turn
whose message contains a line break (as every successful assistant turn
does) spans two lines, so the export is not one line per turn. -/
theorem download_export_cex :
    downloadChatExport [⟨"Alice", "User", "hi"⟩] = "**Alice (User):** hi" ∧
    downloadChatExport [⟨"Alice", "User", "hi"⟩] ≠ "Alice: hi" ∧
    (downloadChatExport [⟨"AI Assistant", "AI", "\n- hi"⟩]).data.count '\n'
      + 1 = 2 ∧
    ([(⟨"AI Assistant", "AI", "\n- hi"⟩ : ChatTurn)]).length = 1 := by
  exact ⟨by decide, by decide, by decide, rfl⟩

/-- Claim C8 (amended): the export is one entry per turn joined by single
newlines, each entry formatted "**<username> (<role>):** <message>"; when
no turn's fields contain a line break the export therefore has exactly one
line per turn (its newline count is the number of turns minus one). -/
theorem download_export_entry_per_turn :
    ∀ (hist : List ChatTurn) (c : ChatTurn), hist ≠ [] →
      (∀ t ∈ hist, t.username.data.count '\n' = 0 ∧
        t.role.data.count '\n' = 0 ∧ t.message.data.count '\n' = 0) →
      (downloadChatExport hist).data.count '\n' + 1 = hist.length ∧
      downloadChatExport [c] =
        "**" ++ c.username ++ " (" ++ c.role ++ "):** " ++ c.message := by
  intro hist c hne hclean
  constructor
  · have hmap : ∀ s ∈ hist.map formatChatEntry, s.data.count '\n' = 0 := by
      intro s hs
      obtain ⟨t, ht, rfl⟩ := List.mem_map.mp hs
      exact formatChatEntry_newline_count t (hclean t ht).1
        (hclean t ht).2.1 (hclean t ht).2.2
    have hlen := pyJoin_newline_count (hist.map formatChatEntry)
      (by simpa using hne) hmap
    simpa [downloadChatExport] using hlen
  · rfl

/-- Witness for the amended claim C8 on a two-turn transcript with
newline-free fields. -/
theorem download_export_entry_per_turn_witness :
    (downloadChatExport
      [⟨"Alice", "User", "hi"⟩, ⟨"AI Assistant", "AI", "ok"⟩]).data.count '\n'
      + 1 = 2 :=
  (download_export_entry_per_turn
    [⟨"Alice", "User", "hi"⟩, ⟨"AI Assistant", "AI", "ok"⟩]
    ⟨"Alice", "User", "hi"⟩ (by decide) (by decide)).1

/-- Claim C4: running code that raises leaves `sys.stdout` pointing at the
capture buffer — the handler's `try` has no `finally`, so the restoring
assignment on the success path is skipped and the pre-run stream is not
restored; the same run with the raise removed does restore it. -/
theorem run_code_stdout_leak :
    ((runCodeHandler "raise Exception('x')" ⟨"", [], some "x"⟩
        RemoteOutcome.noResp ⟨StdoutTarget.real, ⟨[]⟩⟩).2.stdout =
      StdoutTarget.buffer "") ∧
    ((runCodeHandler "raise Exception('x')" ⟨"", [], some "x"⟩
        RemoteOutcome.noResp ⟨StdoutTarget.real, ⟨[]⟩⟩).2.stdout ≠
      StdoutTarget.real) ∧
    ((runCodeHandler "x = 1" ⟨"", [], none⟩
        RemoteOutcome.noResp ⟨StdoutTarget.real, ⟨[]⟩⟩).2.stdout =
      StdoutTarget.real) := by
  exact ⟨rfl, by decide, rfl⟩

/-- Claim C9, counterexample: code that opens a figure and then raises
leaves the plotting subsystem with an open figure after execution, yet the
handler's `except` path captures no figure — refuting the claimed
equivalence for every submitted code string. -/
theorem run_code_figure_cex :
    ((runCodeHandler "plt.figure(); raise Exception('x')" ⟨"", [1], some "x"⟩
        RemoteOutcome.noResp ⟨StdoutTarget.real, ⟨[]⟩⟩).1.figure = none) ∧
    ((runCodeHandler "plt.figure(); raise Exception('x')" ⟨"", [1], some "x"⟩
        RemoteOutcome.noResp ⟨StdoutTarget.real, ⟨[]⟩⟩).2.plt.figs = [1]) := by
  exact ⟨rfl, rfl⟩

/-- Claim C9 (amended): the captured figure is non-null exactly when the
executed code did not raise and at least one figure is open afterwards, in
which case it is the most recently active figure; in particular, from a
figure-free state, a non-raising plotting run captures its figure and a
non-raising `x = 1` run captures none. -/
theorem run_code_figure_capture :
    ∀ (code : String) (eff : ExecEffect) (o : RemoteOutcome) (s : RunState),
      ((runCodeHandler code eff o s).1.figure =
        if eff.raises = none ∧ s.plt.figs ++ eff.opensFigs ≠ []
        then some ((s.plt.figs ++ eff.opensFigs).getLastD 1)
        else none) ∧
      (runCodeHandler "x = 1" ⟨"", [], none⟩ o
        ⟨StdoutTarget.real, ⟨[]⟩⟩).1.figure = none ∧
      (runCodeHandler "plt.plot([1, 2, 3])" ⟨"", [1], none⟩ o
        ⟨StdoutTarget.real, ⟨[]⟩⟩).1.figure = some 1 := by
  intro code eff o s
  refine ⟨?_, rfl, rfl⟩
  rcases heff : eff.raises with _ | e
  · by_cases hfig : s.plt.figs ++ eff.opensFigs = []
    · simp [runCodeHandler, heff, hfig, pltGcf]
    · simp [runCodeHandler, heff, hfig, pltGcf]
  · simp [runCodeHandler, heff]

/-- Claim C10: the login handler transitions the session to logged-in
exactly when the entered username is non-empty; with an empty username the
session state is unchanged and only the warning is shown, and with a
non-empty one the username and role are stored and no warning is shown. -/
theorem login_iff_username_nonempty :
    ∀ (s : LoginState) (u r : String), s.logged_in = false →
      (((loginButtonHandler u r s).1.logged_in = true) ↔ u ≠ "") ∧
      (u = "" → (loginButtonHandler u r s).1 = s ∧
        (loginButtonHandler u r s).2 = true) ∧
      (u ≠ "" → (loginButtonHandler u r s).1 = ⟨true, some u, r⟩ ∧
        (loginButtonHandler u r s).2 = false) := by
  intro s u r hlog
  by_cases hu : u = ""
  · subst hu
    simp [loginButtonHandler, hlog]
  · simp [loginButtonHandler, hu]

/-- Witness for claim C10: from a logged-out state, the handler logs in on
the username "alice" and leaves the state unchanged on the empty
username. -/
theorem login_iff_username_nonempty_witness :
    (loginButtonHandler "alice" "Admin" ⟨false, none, "User"⟩).1 =
      ⟨true, some "alice", "Admin"⟩ ∧
    (loginButtonHandler "" "Admin" ⟨false, none, "User"⟩).1 =
      ⟨false, none, "User"⟩ := by
  have h1 := login_iff_username_nonempty ⟨false, none, "User"⟩ "alice" "Admin" rfl
  have h2 := login_iff_username_nonempty ⟨false, none, "User"⟩ "" "Admin" rfl
  exact ⟨(h1.2.2 (by decide)).1, (h2.2.1 rfl).1⟩
